import Mathlib

-- Verification development for the TREC inspection-report generator
-- (InspectionDataParser and TRECFormFiller in report.py / working-1.py).
-- The Python code is shallowly embedded: dictionaries read with
-- d.get(key, default) become Lean structures with Option fields read with
-- Option.getD, Python strings become Lean String values, and the string
-- operations used by the code (strip, slicing, substring membership,
-- startswith) are implemented on the underlying character lists so that
-- all definitions compute.

namespace Report

-- ===== Python string primitives =====

-- Python str.strip(): drop whitespace from both ends.
def pyStrip (s : String) : String :=
  String.mk (((s.data.dropWhile Char.isWhitespace).reverse.dropWhile Char.isWhitespace).reverse)

-- Pattern pat occurs at the start of l.
def leadsWith : List Char → List Char → Bool
  | _, [] => true
  | [], _ :: _ => false
  | c :: cs, p :: ps => c == p && leadsWith cs ps

-- Pattern pat occurs somewhere inside l (Python: pat in s).
def containsSeq : List Char → List Char → Bool
  | [], pat => pat.isEmpty
  | c :: cs, pat => leadsWith (c :: cs) pat || containsSeq cs pat

-- Python: pat in s.
def pyIn (pat s : String) : Bool := containsSeq s.data pat.data

-- Python: s.startswith(pat).
def pyStarts (s pat : String) : Bool := leadsWith s.data pat.data

-- ===== Extracted (parsed) entities =====

structure Comment where
  id : String
  text : String
  type : String
  location : String
  label : String
  is_selected : Bool
  is_flagged : Bool
  comment_number : String
  photos : List String
  videos : List String
deriving Repr, DecidableEq

structure LineItem where
  id : String
  name : String
  title : String
  order : Int
  inspection_status : String
  is_deficient : Bool
  comments : List Comment
deriving Repr, DecidableEq

structure Section where
  id : String
  name : String
  order : Int
  section_number : String
  line_items : List LineItem
deriving Repr, DecidableEq

structure PropertyInfo where
  street : String
  city : String
  state : String
  zipcode : String
  full_address : String
  square_footage : String
deriving Repr, DecidableEq

structure ClientInfo where
  name : String
  email : String
  phone : String
  user_type : String
deriving Repr, DecidableEq

structure InspectorInfo where
  id : String
  name : String
  email : String
  phone : String
deriving Repr, DecidableEq

-- The schedule date is a milliseconds-since-epoch timestamp in the input
-- JSON. The Python extractor substitutes the empty string for a missing
-- date key; in this typed embedding the falsy empty-string default and a
-- missing key are both modelled by none.
structure Schedule where
  date : Option Int
  start_time : String
  end_time : String
deriving Repr, DecidableEq

-- ===== Raw (JSON-shaped) input record: every leaf field optional =====

structure RawComment where
  id : Option String
  text : Option String
  type : Option String
  location : Option String
  label : Option String
  isSelected : Option Bool
  isFlagged : Option Bool
  commentNumber : Option String
  photos : Option (List String)
  videos : Option (List String)
deriving Repr, DecidableEq

structure RawLineItem where
  id : Option String
  name : Option String
  title : Option String
  order : Option Int
  inspectionStatus : Option String
  isDeficient : Option Bool
  comments : Option (List RawComment)
deriving Repr, DecidableEq

structure RawSection where
  id : Option String
  name : Option String
  order : Option Int
  sectionNumber : Option String
  lineItems : Option (List RawLineItem)
deriving Repr, DecidableEq

structure RawPropertyInfo where
  squareFootage : Option String
deriving Repr, DecidableEq

structure RawAddress where
  street : Option String
  city : Option String
  state : Option String
  zipcode : Option String
  fullAddress : Option String
  propertyInfo : Option RawPropertyInfo
deriving Repr, DecidableEq

structure RawClient where
  name : Option String
  email : Option String
  phone : Option String
  userType : Option String
deriving Repr, DecidableEq

structure RawInspector where
  id : Option String
  name : Option String
  email : Option String
  phone : Option String
deriving Repr, DecidableEq

structure RawSchedule where
  date : Option Int
  startTime : Option String
  endTime : Option String
deriving Repr, DecidableEq

structure RawInspection where
  address : Option RawAddress
  clientInfo : Option RawClient
  inspector : Option RawInspector
  schedule : Option RawSchedule
  sections : Option (List RawSection)
deriving Repr, DecidableEq

structure RawRecord where
  inspection : Option RawInspection
deriving Repr, DecidableEq

-- Empty dictionaries, the defaults the Python code passes to dict.get.

def RawPropertyInfo.empty : RawPropertyInfo := ⟨none⟩

def RawAddress.empty : RawAddress := ⟨none, none, none, none, none, none⟩

def RawClient.empty : RawClient := ⟨none, none, none, none⟩

def RawInspector.empty : RawInspector := ⟨none, none, none, none⟩

def RawSchedule.empty : RawSchedule := ⟨none, none, none⟩

def RawInspection.empty : RawInspection := ⟨none, none, none, none, none⟩

-- ===== InspectionDataParser getters (report.py lines 54-153) =====

def get_property_info (data : RawRecord) : PropertyInfo :=
  let inspection := data.inspection.getD RawInspection.empty
  let address := inspection.address.getD RawAddress.empty
  { street := address.street.getD ""
    city := address.city.getD ""
    state := address.state.getD ""
    zipcode := address.zipcode.getD ""
    full_address := address.fullAddress.getD ""
    square_footage := (address.propertyInfo.getD RawPropertyInfo.empty).squareFootage.getD "" }

def get_client_info (data : RawRecord) : ClientInfo :=
  let inspection := data.inspection.getD RawInspection.empty
  let client := inspection.clientInfo.getD RawClient.empty
  { name := client.name.getD ""
    email := client.email.getD ""
    phone := client.phone.getD ""
    user_type := client.userType.getD "" }

def get_inspector_info (data : RawRecord) : InspectorInfo :=
  let inspection := data.inspection.getD RawInspection.empty
  let inspector := inspection.inspector.getD RawInspector.empty
  { id := inspector.id.getD ""
    name := inspector.name.getD ""
    email := inspector.email.getD ""
    phone := inspector.phone.getD "" }

def get_inspection_schedule (data : RawRecord) : Schedule :=
  let inspection := data.inspection.getD RawInspection.empty
  let schedule := inspection.schedule.getD RawSchedule.empty
  { date := schedule.date
    start_time := schedule.startTime.getD ""
    end_time := schedule.endTime.getD "" }

def parseComment (c : RawComment) : Comment :=
  { id := c.id.getD ""
    text := c.text.getD ""
    type := c.type.getD ""
    location := c.location.getD ""
    label := c.label.getD ""
    is_selected := c.isSelected.getD false
    is_flagged := c.isFlagged.getD false
    comment_number := c.commentNumber.getD ""
    photos := c.photos.getD []
    videos := c.videos.getD [] }

def parseLineItem (li : RawLineItem) : LineItem :=
  { id := li.id.getD ""
    name := li.name.getD ""
    title := li.title.getD ""
    order := li.order.getD 0
    inspection_status := li.inspectionStatus.getD ""
    is_deficient := li.isDeficient.getD false
    comments := (li.comments.getD []).map parseComment }

def parseSection (s : RawSection) : Section :=
  { id := s.id.getD ""
    name := s.name.getD ""
    order := s.order.getD 0
    section_number := s.sectionNumber.getD ""
    line_items := (s.lineItems.getD []).map parseLineItem }

def get_sections (data : RawRecord) : List Section :=
  ((data.inspection.getD RawInspection.empty).sections.getD []).map parseSection

-- Resolved sub-dictionaries, used to phrase key absence along a path.

def addressOf (data : RawRecord) : RawAddress :=
  (data.inspection.getD RawInspection.empty).address.getD RawAddress.empty

def propertyInfoOf (data : RawRecord) : RawPropertyInfo :=
  (addressOf data).propertyInfo.getD RawPropertyInfo.empty

def clientOf (data : RawRecord) : RawClient :=
  (data.inspection.getD RawInspection.empty).clientInfo.getD RawClient.empty

def inspectorOf (data : RawRecord) : RawInspector :=
  (data.inspection.getD RawInspection.empty).inspector.getD RawInspector.empty

def scheduleOf (data : RawRecord) : RawSchedule :=
  (data.inspection.getD RawInspection.empty).schedule.getD RawSchedule.empty

def rawSectionsOf (data : RawRecord) : Option (List RawSection) :=
  (data.inspection.getD RawInspection.empty).sections

-- ===== Inspection date derivation (generate_report lines 189-199) =====

def fallback_date : String := "08/13/2025"

-- Gregorian calendar date for a count of days since 1970-01-01 (UTC),
-- the standard era-based civil-from-days computation. All divisions act
-- on non-negative operands.
def civilFromDays (z0 : Int) : Int × Nat × Nat :=
  let z := z0 + 719468
  let era := Int.fdiv z 146097
  let doe := z - era * 146097
  let yoe := Int.fdiv (doe - Int.fdiv doe 1460 + Int.fdiv doe 36524 - Int.fdiv doe 146096) 365
  let y := yoe + era * 400
  let doy := doe - (365 * yoe + Int.fdiv yoe 4 - Int.fdiv yoe 100)
  let mp := Int.fdiv (5 * doy + 2) 153
  let d := doy - Int.fdiv (153 * mp + 2) 5 + 1
  let m := if mp < 10 then mp + 3 else mp - 9
  (if m ≤ 2 then y + 1 else y, m.toNat, d.toNat)

def pad2 (n : Nat) : String := if n < 10 then "0" ++ toString n else toString n

-- datetime.fromtimestamp(ms / 1000).strftime of the MM/DD/YYYY pattern,
-- modelled in UTC; fromtimestamp raises (here: none) when the resulting
-- year falls outside the range datetime supports, 1..9999.
def convertTimestamp (ms : Int) : Option String :=
  let secs := Int.fdiv ms 1000
  let days := Int.fdiv secs 86400
  let c := civilFromDays days
  if 1 ≤ c.1 ∧ c.1 ≤ 9999 then
    some (pad2 c.2.1 ++ "/" ++ pad2 c.2.2 ++ "/" ++ toString c.1.toNat)
  else none

-- The code tests the timestamp for truthiness: none (a missing date key,
-- extracted as the falsy empty string) and some 0 (the falsy integer 0)
-- both take the fallback branch; a failed conversion also falls back.
def derive_inspection_date : Option Int → String
  | none => fallback_date
  | some ts =>
    if ts = 0 then fallback_date
    else
      match convertTimestamp ts with
      | some s => s
      | none => fallback_date

-- ===== Inspection matrix fill (report.py, _fill_inspection_matrix) =====

-- The per-section snapshot the code appends to inspection_sections.
structure MatrixSection where
  name : String
  status : String
  deficient : Bool
deriving Repr, DecidableEq

-- Sections kept for the checkbox matrix: those with at least one line
-- item whose first line item has a status that is truthy and non-blank
-- after strip (report.py lines 271-292).
def inspection_sections : List Section → List MatrixSection
  | [] => []
  | s :: rest =>
    match s.line_items with
    | [] => inspection_sections rest
    | first :: _ =>
      if first.inspection_status ≠ "" ∧ pyStrip first.inspection_status ≠ "" then
        { name := s.name, status := first.inspection_status,
          deficient := first.is_deficient } :: inspection_sections rest
      else inspection_sections rest

def checkBoxName (n : Nat) : String := "CheckBox1[" ++ toString n ++ "]"

-- The checkbox writes one section contributes (report.py lines 303-325):
-- base = i * 4 and an if/elif chain over the four status codes, guarded
-- by presence of the slot name in the form-field catalog.
def checkboxDataFor (form_fields : List String) (i : Nat) (ms : MatrixSection) :
    List (String × Bool) :=
  let base := i * 4
  if ms.status = "I" ∧ checkBoxName base ∈ form_fields then
    [(checkBoxName base, true)]
  else if ms.status = "NI" ∧ checkBoxName (base + 1) ∈ form_fields then
    [(checkBoxName (base + 1), true)]
  else if ms.status = "NP" ∧ checkBoxName (base + 2) ∈ form_fields then
    [(checkBoxName (base + 2), true)]
  else if ms.status = "D" ∧ checkBoxName (base + 3) ∈ form_fields then
    [(checkBoxName (base + 3), true)]
  else []

-- All checkbox writes of the matrix stage: the first 12 qualifying
-- sections, in input order, each contributing its checkboxDataFor.
def fill_inspection_matrix (secs : List Section) (form_fields : List String) :
    List (String × Bool) :=
  ((inspection_sections secs).take 12).enum.flatMap
    (fun p => checkboxDataFor form_fields p.1 p.2)

-- Spec-side formulation of claim C1, written from the words of the spec:
-- a section qualifies iff its line-item list is non-empty and the first
-- line items status, stripped of whitespace, is non-empty; the i-th
-- qualifying section writes slot 4i + offset(status) when that slot name
-- is in the catalog, and nothing otherwise.

def firstStatus (s : Section) : String :=
  match s.line_items with
  | [] => ""
  | first :: _ => first.inspection_status

def firstDeficient (s : Section) : Bool :=
  match s.line_items with
  | [] => false
  | first :: _ => first.is_deficient

def sectionQualifiesSpec (s : Section) : Bool :=
  match s.line_items with
  | [] => false
  | first :: _ => pyStrip first.inspection_status ≠ ""

def offsetSpec (status : String) : Option Nat :=
  if status = "I" then some 0
  else if status = "NI" then some 1
  else if status = "NP" then some 2
  else if status = "D" then some 3
  else none

def matrixWritesSpec (secs : List Section) (form_fields : List String) :
    List (String × Bool) :=
  ((secs.filter sectionQualifiesSpec).take 12).enum.flatMap
    (fun p =>
      match offsetSpec (firstStatus p.2) with
      | some off =>
        if checkBoxName (4 * p.1 + off) ∈ form_fields then
          [(checkBoxName (4 * p.1 + off), true)]
        else []
      | none => [])

-- ===== Narrative fill (report.py, _fill_inspection_details) =====

-- Text fields available for comments: name contains Text but does not
-- start with TextField (report.py line 351).
def text_fields_of (form_fields : List String) : List String :=
  form_fields.filter (fun f => pyIn "Text" f && !(pyStarts f "TextField"))

-- A comment rendered with its section context: the section name, a
-- parenthesized location when location is non-empty, then a colon and
-- the stripped comment text (report.py lines 372-375).
def formatComment (sectionName location strippedText : String) : String :=
  sectionName ++ (if location ≠ "" then " (" ++ location ++ ")" else "") ++
    ": " ++ strippedText

def renderComment (sectionName : String) (c : Comment) : String :=
  formatComment sectionName c.location (pyStrip c.text)

-- One pass over the comments of a line item, splitting rendered strings
-- into (general, deficiency) while preserving discovery order; mirrors
-- the appends of report.py lines 365-380.
def collectFromComments (sectionName : String) : List Comment → List String × List String
  | [] => ([], [])
  | c :: cs =>
    let rest := collectFromComments sectionName cs
    let t := pyStrip c.text
    if t ≠ "" then
      if c.type = "defect" then
        (rest.1, formatComment sectionName c.location t :: rest.2)
      else
        (formatComment sectionName c.location t :: rest.1, rest.2)
    else rest

def pairApp (a b : List String × List String) : List String × List String :=
  (a.1 ++ b.1, a.2 ++ b.2)

def collectFromItems (sectionName : String) : List LineItem → List String × List String
  | [] => ([], [])
  | li :: rest =>
    pairApp (collectFromComments sectionName li.comments) (collectFromItems sectionName rest)

def collectComments : List Section → List String × List String
  | [] => ([], [])
  | s :: rest => pairApp (collectFromItems s.name s.line_items) (collectComments rest)

-- Deficiency comments first, then general comments (report.py line 385).
def comments_to_fill (secs : List Section) : List String :=
  (collectComments secs).2 ++ (collectComments secs).1

-- Truncate very long comments (report.py line 393): first 500 characters
-- plus a three-character ellipsis when longer than 500.
def truncateComment (c : String) : String :=
  if c.length > 500 then String.mk (c.data.take 500) ++ "..." else c

-- Assignment of rendered comments to text fields: the i-th comment of
-- comments_to_fill, sliced to the number of text fields, goes to the
-- i-th text field (report.py lines 390-394).
def fill_inspection_details (secs : List Section) (form_fields : List String) :
    List (String × String) :=
  let tfs := text_fields_of form_fields
  tfs.zip (((comments_to_fill secs).take tfs.length).map truncateComment)

-- Spec-side formulation of claim C6: flatten all comments in discovery
-- order (sections, then line items, then comments), keep the deficiency
-- ones (type tag defect, non-blank text) first and the general ones
-- (everything else with non-blank text) second.

def discoveredComments (secs : List Section) : List (String × Comment) :=
  secs.flatMap (fun s => s.line_items.flatMap
    (fun li => li.comments.map (fun c => (s.name, c))))

def defectRenderSpec (p : String × Comment) : Option String :=
  if pyStrip p.2.text ≠ "" ∧ p.2.type = "defect" then some (renderComment p.1 p.2)
  else none

def generalRenderSpec (p : String × Comment) : Option String :=
  if pyStrip p.2.text ≠ "" ∧ p.2.type ≠ "defect" then some (renderComment p.1 p.2)
  else none

-- ===== generate_report (report.py lines 164-263) =====

-- A value written into a form field: scalar and narrative fills write
-- strings, matrix fills write checkbox booleans.
inductive FieldWrite where
  | text (s : String)
  | check (b : Bool)
deriving Repr, DecidableEq

-- The filled output document, at the level claims C7 and C9 speak about:
-- the set of (field name, written value) pairs.
structure OutputDoc where
  fields : List (String × FieldWrite)
deriving Repr, DecidableEq

-- Scalar fill (report.py lines 226-240): each of the four known fields
-- is written only if present in the catalog and the value is non-empty.
def scalar_form_data (form_fields : List String)
    (client_name inspection_date property_address inspector_name : String) :
    List (String × String) :=
  (if "Name of Client" ∈ form_fields ∧ client_name ≠ "" then
    [("Name of Client", client_name)] else [])
  ++ (if "Date of Inspection" ∈ form_fields ∧ inspection_date ≠ "" then
    [("Date of Inspection", inspection_date)] else [])
  ++ (if "Address of Inspected Property" ∈ form_fields ∧ property_address ≠ "" then
    [("Address of Inspected Property", property_address)] else [])
  ++ (if "Name of Inspector" ∈ form_fields ∧ inspector_name ≠ "" then
    [("Name of Inspector", inspector_name)] else [])

-- The complete mapping of field names to written values produced by one
-- successful run, as a function of the input record and the template
-- field catalog: scalar fill, then matrix fill, then narrative fill.
def documentOf (r : RawRecord) (form_fields : List String) : OutputDoc :=
  let property_info := get_property_info r
  let client_info := get_client_info r
  let inspector_info := get_inspector_info r
  let schedule := get_inspection_schedule r
  let secs := get_sections r
  let inspection_date := derive_inspection_date schedule.date
  ⟨(scalar_form_data form_fields client_info.name inspection_date
      property_info.full_address inspector_info.name).map
        (fun p => (p.1, FieldWrite.text p.2))
    ++ (fill_inspection_matrix secs form_fields).map
        (fun p => (p.1, FieldWrite.check p.2))
    ++ (fill_inspection_details secs form_fields).map
        (fun p => (p.1, FieldWrite.text p.2))⟩

-- The file-system state generate_report touches: the template (none
-- when the file is absent, otherwise its field catalog) and the output
-- artifact (none when no output file exists).
structure World where
  template : Option (List String)
  output : Option OutputDoc
deriving Repr, DecidableEq

-- generate_report control flow: missing template and an empty field
-- catalog abort before the output file is opened; any exception raised
-- while filling (fill_raises abstracts the unknown external cause) is
-- caught by the top-level handler, also before the output file is
-- opened; only the success path writes the output artifact. Returns the
-- final file-system state and the boolean success result.
def generate_report (r : RawRecord) (fill_raises : Bool) (w : World) : World × Bool :=
  match w.template with
  | none => (w, false)
  | some form_fields =>
    if form_fields.isEmpty then (w, false)
    else if fill_raises then (w, false)
    else ({ w with output := some (documentOf r form_fields) }, true)

end Report

namespace W1

-- ===== working-1.py checkbox appearance repair =====

-- A widget annotation of the output document, with the entries the
-- appearance-repair code reads and writes: /Subtype, /FT, /T, /V, /AS,
-- the keys of the normal-appearance catalog /AP -> /N (none when the
-- field defines no appearance catalog), and /Opt.
structure Annot where
  subtype : String
  field_type : String
  name : String
  value : Option String
  app_state : Option String
  ap_normal_keys : Option (List String)
  opt_values : Option (List String)
deriving Repr, DecidableEq

-- working-1.py line 512: the ordered list of checkbox values the matrix
-- fill tries; the Python list also ends with the boolean True, which is
-- never reached because assigning the first alias always succeeds.
def checkbox_values_to_try : List String := ["Yes", "On", "1", "/Yes", "/On", "/1"]

-- working-1.py lines 575-581: the first alias whose dictionary
-- assignment succeeds is kept; assignment never fails, so the first
-- entry of the list is always the one written.
def selected_checkbox_value : Option String := checkbox_values_to_try.head?

-- working-1.py line 432: the fixed fallback aliases of
-- _determine_checkbox_export_value.
def possible_values : List String := ["Yes", "On", "1", "True", "X", "Checked"]

-- _determine_checkbox_export_value (working-1.py lines 426-457): prefer
-- the keys of the appearance catalog, else /Opt, else the fixed list.
-- Its result is computed for a sample checkbox during field analysis and
-- then discarded; no caller consumes it.
def determine_checkbox_export_value (a : Annot) : List String :=
  match a.ap_normal_keys with
  | some keys => keys
  | none =>
    match a.opt_values with
    | some opts => opts
    | none => possible_values

-- The /AS value _set_checkbox_appearance_state writes for a checkbox
-- value (working-1.py lines 783-794): a hard-coded alias derived from
-- the written value alone, never from the appearance catalog.
def as_value_for (v : String) : String :=
  if v = "Yes" ∨ v = "/Yes" then "/Yes"
  else if v = "On" ∨ v = "/On" then "/On"
  else if v = "1" ∨ v = "/1" then "/1"
  else "/" ++ v

-- _set_checkbox_appearance_state (working-1.py lines 747-809): for every
-- widget annotation of button type whose field name is in checkbox_data,
-- set /V to the slash-prefixed value and /AS via as_value_for.
def set_checkbox_appearance_state (page : List Annot) (checkbox_data : List (String × String)) :
    List Annot :=
  page.map (fun a =>
    if a.subtype = "/Widget" ∧ a.field_type = "/Btn" then
      match checkbox_data.find? (fun p => p.1 = a.name) with
      | some p => { a with value := some ("/" ++ p.2), app_state := some (as_value_for p.2) }
      | none => a
    else a)

-- A concrete page: one checkbox widget whose appearance catalog declares
-- the checked-state key /On (and the unchecked key /Off).
def onOffCheckbox : Annot :=
  { subtype := "/Widget", field_type := "/Btn", name := "CheckBox1[3]",
    value := none, app_state := none,
    ap_normal_keys := some ["/On", "/Off"], opt_values := none }

-- ===== working-1.py matrix fill (working-1.py lines 459-616) =====

-- Section selection (working-1.py lines 464-486) is character-identical
-- to report.py and is shared as Report.inspection_sections. The write
-- differs: working-1.py computes the target slot index from the status
-- (lines 549-558), builds a pattern list of the exact slot name followed
-- by every catalog name containing it as a substring -- its defence
-- against UTF-8 BOM-prefixed field names (lines 562-570) -- and writes
-- the first pattern present in the catalog with the first alias of
-- checkbox_values_to_try, whose dictionary assignment never fails
-- (lines 572-585).

def target_index (base : Nat) (status : String) : Option Nat :=
  if status = "I" then some base
  else if status = "NI" then some (base + 1)
  else if status = "NP" then some (base + 2)
  else if status = "D" then some (base + 3)
  else none

def target_field_patterns (form_fields : List String) (idx : Nat) : List String :=
  Report.checkBoxName idx ::
    form_fields.filter (fun f => Report.pyIn (Report.checkBoxName idx) f)

def checkboxDataForW1 (form_fields : List String) (i : Nat)
    (ms : Report.MatrixSection) : List (String × String) :=
  let base := i * 4
  match target_index base ms.status with
  | none => []
  | some idx =>
    match (target_field_patterns form_fields idx).find?
        (fun p => decide (p ∈ form_fields)) with
    | some p => (checkbox_values_to_try.take 1).map (fun v => (p, v))
    | none => []

def fill_inspection_matrix (secs : List Report.Section)
    (form_fields : List String) : List (String × String) :=
  ((Report.inspection_sections secs).take 12).enum.flatMap
    (fun p => checkboxDataForW1 form_fields p.1 p.2)

-- Spec-side write target of the amended claim C1 for working-1.py: the
-- slot name itself when it is in the catalog, else the first catalog
-- name containing the slot name as a substring.
def slotTargetSpec (form_fields : List String) (idx : Nat) : Option String :=
  if Report.checkBoxName idx ∈ form_fields then some (Report.checkBoxName idx)
  else form_fields.find? (fun f => Report.pyIn (Report.checkBoxName idx) f)

def matrixWritesSpecW1 (secs : List Report.Section) (form_fields : List String) :
    List (String × String) :=
  ((secs.filter Report.sectionQualifiesSpec).take 12).enum.flatMap
    (fun p =>
      match Report.offsetSpec (Report.firstStatus p.2) with
      | some off =>
        match slotTargetSpec form_fields (4 * p.1 + off) with
        | some f => [(f, "Yes")]
        | none => []
      | none => [])

-- Concrete input for the counterexample to claim C1 as stated: a field
-- catalog holding only a BOM-prefixed variant of slot 3, and a record
-- with one section whose first line item has status D.
def bomCatalog : List String := ["\uFEFFCheckBox1[3]"]

def statusDSection : Report.Section :=
  { id := "", name := "Structural", order := 0, section_number := "",
    line_items := [{ id := "", name := "", title := "", order := 0,
                     inspection_status := "D", is_deficient := true,
                     comments := [] }] }

end W1

namespace Report

-- ===== Concrete data used by witnesses and counterexamples =====

def RawRecord.empty : RawRecord := ⟨none⟩

def RawSection.empty : RawSection := ⟨none, none, none, none, none⟩

def RawLineItem.empty : RawLineItem := ⟨none, none, none, none, none, none, none⟩

def RawComment.empty : RawComment :=
  ⟨none, none, none, none, none, none, none, none, none, none⟩

def mkComment (t loc ty : String) : Comment :=
  { id := "", text := t, type := ty, location := loc, label := "",
    is_selected := false, is_flagged := false, comment_number := "",
    photos := [], videos := [] }

-- One section whose single line item carries three comments discovered
-- in the order G1, D1, G2, with D1 the only deficiency comment.
def exampleSections : List Section :=
  [{ id := "", name := "Roof", order := 0, section_number := "",
     line_items :=
       [{ id := "", name := "", title := "", order := 0,
          inspection_status := "D", is_deficient := true,
          comments := [mkComment "g1" "" "", mkComment "d1" "" "defect",
                       mkComment "g2" "" ""] }] }]

def longString : String := String.mk (List.replicate 600 'a')

end Report

namespace Report

-- ===== Theorems =====

/-- Claim C5: a rendered comment longer than 500 characters is written as
its first 500 characters followed by the three-character ellipsis, total
length 503; a rendered comment of length at most 500 is written
unchanged. -/
theorem truncate_spec (s : String) :
    (s.length > 500 →
      truncateComment s = String.mk (s.data.take 500) ++ "..."
      ∧ (truncateComment s).length = 503)
  ∧ (s.length ≤ 500 → truncateComment s = s) := by
  have hd : s.data.length = s.length := rfl
  constructor
  · intro h
    have he : truncateComment s = String.mk (s.data.take 500) ++ "..." := by
      simp [truncateComment, h]
    refine ⟨he, ?_⟩
    rw [he, String.length_append]
    have h500 : (String.mk (s.data.take 500)).length = 500 := by
      show (s.data.take 500).length = 500
      rw [List.length_take]
      omega
    rw [h500]
    decide
  · intro h
    have : ¬ (s.length > 500) := by omega
    simp [truncateComment, this]

/-- Claim C5 witness: a 600-character comment is truncated to its first
500 characters plus the ellipsis, total length 503. -/
theorem truncate_spec_witness :
    truncateComment longString = String.mk (List.replicate 500 'a') ++ "..."
  ∧ (truncateComment longString).length = 503 := by
  have h : longString.length > 500 := by
    show (List.replicate 600 'a').length > 500
    rw [List.length_replicate]
    omega
  have hs := (truncate_spec longString).1 h
  refine ⟨?_, hs.2⟩
  rw [hs.1]
  show String.mk ((List.replicate 600 'a').take 500) ++ "..." = _
  rw [List.take_replicate]
  norm_num

/-- Claim C4 counterexample: the code renders the comment text stripped
of surrounding whitespace, so for a non-blank comment whose text begins
with a space the rendered string differs from section name, colon and
the raw comment text. -/
theorem render_raw_text_cex :
    pyStrip (mkComment " leaning fence" "" "").text ≠ ""
  ∧ renderComment "Yard" (mkComment " leaning fence" "" "")
      ≠ "Yard" ++ ": " ++ (mkComment " leaning fence" "" "").text := by
  decide

/-- Claim C4 (amended): for every comment with non-blank text, the
rendered narrative string equals the section name, followed by a
parenthesized location with a leading space exactly when the location is
non-empty, followed by colon-space and the comment text stripped of
surrounding whitespace; in particular the two concrete example renderings
of the claim hold. -/
theorem render_formula (n l t ty : String) (h : pyStrip t ≠ "") :
    renderComment n (mkComment t l ty)
      = n ++ (if l ≠ "" then " (" ++ l ++ ")" else "") ++ ": " ++ pyStrip t
  ∧ renderComment "Roof" (mkComment "missing shingles" "North slope" "")
      = "Roof (North slope): missing shingles"
  ∧ renderComment "Roof" (mkComment "missing shingles" "" "")
      = "Roof: missing shingles" := by
  refine ⟨?_, by decide, by decide⟩
  simp [renderComment, formatComment, mkComment]

/-- Claim C4 witness: the amended rendering formula evaluated on the
concrete comment of the claim. -/
theorem render_formula_witness :
    pyStrip "missing shingles" ≠ ""
  ∧ renderComment "Roof" (mkComment "missing shingles" "North slope" "")
      = "Roof" ++ (if "North slope" ≠ "" then " (" ++ "North slope" ++ ")" else "")
        ++ ": " ++ pyStrip "missing shingles" := by
  have h : pyStrip "missing shingles" ≠ "" := by decide
  exact ⟨h, (render_formula "Roof" "North slope" "missing shingles" "" h).1⟩

/-- Claim C10: a schedule timestamp equal to 0 and the falsy default
substituted for a missing date key are both treated like an absent
timestamp: the fallback date literal is written, never the converted
epoch date 01/01/1970, even though the epoch converts to that date. -/
theorem zero_timestamp_fallback :
    derive_inspection_date (some 0) = fallback_date
  ∧ derive_inspection_date none = fallback_date
  ∧ convertTimestamp 0 = some "01/01/1970"
  ∧ fallback_date ≠ "01/01/1970" := by
  decide

/-- Claim C3: the derived inspection-date string is the converted
calendar date rendered MM/DD/YYYY when the timestamp is present (truthy)
and convertible, and the fixed fallback literal when the timestamp is
absent, falsy, or fails to convert; derivation is total. -/
theorem inspection_date_spec (ts : Option Int) :
    (∀ t s, ts = some t → t ≠ 0 → convertTimestamp t = some s →
      derive_inspection_date ts = s)
  ∧ (ts = none → derive_inspection_date ts = fallback_date)
  ∧ (ts = some 0 → derive_inspection_date ts = fallback_date)
  ∧ (∀ t, ts = some t → convertTimestamp t = none →
      derive_inspection_date ts = fallback_date) := by
  refine ⟨?_, ?_, ?_, ?_⟩
  · rintro t s rfl ht hc
    simp [derive_inspection_date, ht, hc]
  · rintro rfl; rfl
  · rintro rfl; rfl
  · rintro t rfl hc
    by_cases ht : t = 0
    · simp [derive_inspection_date, ht]
    · simp [derive_inspection_date, ht, hc]

/-- Claim C3 witness: one day past the epoch converts to 01/02/1970, and
an absent timestamp yields the fallback literal. -/
theorem inspection_date_spec_witness :
    derive_inspection_date (some 86400000) = "01/02/1970"
  ∧ derive_inspection_date none = fallback_date := by
  constructor
  · exact (inspection_date_spec (some 86400000)).1 86400000 "01/02/1970" rfl
      (by decide) (by decide)
  · exact (inspection_date_spec none).2.1 rfl

/-- Claim C7: when the template is absent, when the template exposes zero
fillable fields, or when an exception is raised during filling,
generate_report returns false and leaves the file system unchanged, so no
partial output artifact is written. -/
theorem failure_no_output (r : RawRecord) (fr : Bool) (w : World)
    (h : w.template = none ∨ w.template = some [] ∨ fr = true) :
    generate_report r fr w = (w, false)
  ∧ (w.output = none → (generate_report r fr w).1.output = none) := by
  have hmain : generate_report r fr w = (w, false) := by
    rcases h with h | h | h
    · simp [generate_report, h]
    · simp [generate_report, h]
    · cases ht : w.template with
      | none => simp [generate_report, ht]
      | some ff =>
        subst h
        by_cases he : ff.isEmpty <;> simp [generate_report, ht, he]
  refine ⟨hmain, fun ho => ?_⟩
  rw [hmain, ho]

/-- Claim C7 witness: a missing template on a clean file system fails
with no output artifact. -/
theorem failure_no_output_witness :
    generate_report RawRecord.empty false ⟨none, none⟩ = (⟨none, none⟩, false) :=
  (failure_no_output RawRecord.empty false ⟨none, none⟩ (Or.inl rfl)).1

/-- Claim C9: running the populator twice on the same input record
against the same template produces the same output document and the same
success result; the written field-value set is a deterministic function
of the record and the template field catalog, and a run never modifies
the template slot the next run reads. -/
theorem two_runs_agree (r : RawRecord) (fr : Bool) (w0 : World) :
    (generate_report r fr (generate_report r fr w0).1).1.output
      = (generate_report r fr w0).1.output
  ∧ (generate_report r fr (generate_report r fr w0).1).2
      = (generate_report r fr w0).2 := by
  cases ht : w0.template with
  | none => simp [generate_report, ht]
  | some ff =>
    by_cases he : ff.isEmpty
    · simp [generate_report, ht, he]
    · by_cases hf : fr <;> simp [generate_report, ht, he, hf]

end Report

namespace W1

/-- Claim C8: during appearance repair the code writes the hard-coded
display-state alias derived from the written value -- always /Yes, since
the matrix fill always selects the first alias of
checkbox_values_to_try -- and never consults the appearance catalog of
the field, even when the catalog declares its checked-state key /On; the
catalog-reading helper determine_checkbox_export_value would have
returned that key but its result is discarded. -/
theorem appearance_state_ignores_catalog :
    selected_checkbox_value = some "Yes"
  ∧ determine_checkbox_export_value onOffCheckbox = ["/On", "/Off"]
  ∧ (set_checkbox_appearance_state [onOffCheckbox]
      [("CheckBox1[3]", "Yes")]).map Annot.app_state = [some "/Yes"]
  ∧ "/Yes" ∉ (["/On", "/Off"] : List String) := by
  decide

end W1

namespace Report

/-- Claim C2: for every input record and every leaf field of the
extracted entities, if the corresponding JSON key is absent the extractor
returns the documented default -- the empty string for strings, false for
booleans, 0 for the order number, the empty list for lists (a missing
schedule date yields the falsy default, modelled none); extraction is a
total function, so the absence of a key never raises. -/
theorem extractor_defaults (r : RawRecord) (rs : RawSection)
    (rli : RawLineItem) (rc : RawComment) :
    (get_sections r = ((rawSectionsOf r).getD []).map parseSection)
  ∧ ((addressOf r).street = none → (get_property_info r).street = "")
  ∧ ((addressOf r).city = none → (get_property_info r).city = "")
  ∧ ((addressOf r).state = none → (get_property_info r).state = "")
  ∧ ((addressOf r).zipcode = none → (get_property_info r).zipcode = "")
  ∧ ((addressOf r).fullAddress = none → (get_property_info r).full_address = "")
  ∧ ((propertyInfoOf r).squareFootage = none → (get_property_info r).square_footage = "")
  ∧ ((clientOf r).name = none → (get_client_info r).name = "")
  ∧ ((clientOf r).email = none → (get_client_info r).email = "")
  ∧ ((clientOf r).phone = none → (get_client_info r).phone = "")
  ∧ ((clientOf r).userType = none → (get_client_info r).user_type = "")
  ∧ ((inspectorOf r).id = none → (get_inspector_info r).id = "")
  ∧ ((inspectorOf r).name = none → (get_inspector_info r).name = "")
  ∧ ((inspectorOf r).email = none → (get_inspector_info r).email = "")
  ∧ ((inspectorOf r).phone = none → (get_inspector_info r).phone = "")
  ∧ ((scheduleOf r).date = none → (get_inspection_schedule r).date = none)
  ∧ ((scheduleOf r).startTime = none → (get_inspection_schedule r).start_time = "")
  ∧ ((scheduleOf r).endTime = none → (get_inspection_schedule r).end_time = "")
  ∧ (rawSectionsOf r = none → get_sections r = [])
  ∧ (rs.id = none → (parseSection rs).id = "")
  ∧ (rs.name = none → (parseSection rs).name = "")
  ∧ (rs.order = none → (parseSection rs).order = 0)
  ∧ (rs.sectionNumber = none → (parseSection rs).section_number = "")
  ∧ (rs.lineItems = none → (parseSection rs).line_items = [])
  ∧ (rli.id = none → (parseLineItem rli).id = "")
  ∧ (rli.name = none → (parseLineItem rli).name = "")
  ∧ (rli.title = none → (parseLineItem rli).title = "")
  ∧ (rli.order = none → (parseLineItem rli).order = 0)
  ∧ (rli.inspectionStatus = none → (parseLineItem rli).inspection_status = "")
  ∧ (rli.isDeficient = none → (parseLineItem rli).is_deficient = false)
  ∧ (rli.comments = none → (parseLineItem rli).comments = [])
  ∧ (rc.id = none → (parseComment rc).id = "")
  ∧ (rc.text = none → (parseComment rc).text = "")
  ∧ (rc.type = none → (parseComment rc).type = "")
  ∧ (rc.location = none → (parseComment rc).location = "")
  ∧ (rc.label = none → (parseComment rc).label = "")
  ∧ (rc.isSelected = none → (parseComment rc).is_selected = false)
  ∧ (rc.isFlagged = none → (parseComment rc).is_flagged = false)
  ∧ (rc.commentNumber = none → (parseComment rc).comment_number = "")
  ∧ (rc.photos = none → (parseComment rc).photos = [])
  ∧ (rc.videos = none → (parseComment rc).videos = []) := by
  refine ⟨rfl, ?_, ?_, ?_, ?_, ?_, ?_, ?_, ?_, ?_, ?_, ?_, ?_, ?_, ?_, ?_,
    ?_, ?_, ?_, ?_, ?_, ?_, ?_, ?_, ?_, ?_, ?_, ?_, ?_, ?_, ?_, ?_, ?_,
    ?_, ?_, ?_, ?_, ?_, ?_, ?_, ?_⟩
  all_goals intro h
  all_goals
    simp_all [get_property_info, get_client_info, get_inspector_info,
      get_inspection_schedule, get_sections, parseSection, parseLineItem,
      parseComment, addressOf, propertyInfoOf, clientOf, inspectorOf,
      scheduleOf, rawSectionsOf]

/-- Claim C2 witness: extraction of the fully empty record, section, line
item and comment yields every documented default. -/
theorem extractor_defaults_witness :
    (get_property_info RawRecord.empty).street = ""
  ∧ (get_property_info RawRecord.empty).city = ""
  ∧ (get_property_info RawRecord.empty).state = ""
  ∧ (get_property_info RawRecord.empty).zipcode = ""
  ∧ (get_property_info RawRecord.empty).full_address = ""
  ∧ (get_property_info RawRecord.empty).square_footage = ""
  ∧ (get_client_info RawRecord.empty).name = ""
  ∧ (get_client_info RawRecord.empty).email = ""
  ∧ (get_client_info RawRecord.empty).phone = ""
  ∧ (get_client_info RawRecord.empty).user_type = ""
  ∧ (get_inspector_info RawRecord.empty).id = ""
  ∧ (get_inspector_info RawRecord.empty).name = ""
  ∧ (get_inspector_info RawRecord.empty).email = ""
  ∧ (get_inspector_info RawRecord.empty).phone = ""
  ∧ (get_inspection_schedule RawRecord.empty).date = none
  ∧ (get_inspection_schedule RawRecord.empty).start_time = ""
  ∧ (get_inspection_schedule RawRecord.empty).end_time = ""
  ∧ get_sections RawRecord.empty = []
  ∧ (parseSection RawSection.empty).id = ""
  ∧ (parseSection RawSection.empty).name = ""
  ∧ (parseSection RawSection.empty).order = 0
  ∧ (parseSection RawSection.empty).section_number = ""
  ∧ (parseSection RawSection.empty).line_items = []
  ∧ (parseLineItem RawLineItem.empty).id = ""
  ∧ (parseLineItem RawLineItem.empty).name = ""
  ∧ (parseLineItem RawLineItem.empty).title = ""
  ∧ (parseLineItem RawLineItem.empty).order = 0
  ∧ (parseLineItem RawLineItem.empty).inspection_status = ""
  ∧ (parseLineItem RawLineItem.empty).is_deficient = false
  ∧ (parseLineItem RawLineItem.empty).comments = []
  ∧ (parseComment RawComment.empty).id = ""
  ∧ (parseComment RawComment.empty).text = ""
  ∧ (parseComment RawComment.empty).type = ""
  ∧ (parseComment RawComment.empty).location = ""
  ∧ (parseComment RawComment.empty).label = ""
  ∧ (parseComment RawComment.empty).is_selected = false
  ∧ (parseComment RawComment.empty).is_flagged = false
  ∧ (parseComment RawComment.empty).comment_number = ""
  ∧ (parseComment RawComment.empty).photos = []
  ∧ (parseComment RawComment.empty).videos = [] := by
  obtain ⟨-, h1, h2, h3, h4, h5, h6, h7, h8, h9, h10, h11, h12, h13, h14,
    h15, h16, h17, h18, h19, h20, h21, h22, h23, h24, h25, h26, h27, h28,
    h29, h30, h31, h32, h33, h34, h35, h36, h37, h38, h39, h40⟩ :=
    extractor_defaults RawRecord.empty RawSection.empty RawLineItem.empty
      RawComment.empty
  exact ⟨h1 rfl, h2 rfl, h3 rfl, h4 rfl, h5 rfl, h6 rfl, h7 rfl, h8 rfl,
    h9 rfl, h10 rfl, h11 rfl, h12 rfl, h13 rfl, h14 rfl, h15 rfl, h16 rfl,
    h17 rfl, h18 rfl, h19 rfl, h20 rfl, h21 rfl, h22 rfl, h23 rfl, h24 rfl,
    h25 rfl, h26 rfl, h27 rfl, h28 rfl, h29 rfl, h30 rfl, h31 rfl, h32 rfl,
    h33 rfl, h34 rfl, h35 rfl, h36 rfl, h37 rfl, h38 rfl, h39 rfl, h40 rfl⟩

end Report

namespace Report

-- A non-empty stripped status forces a non-empty status, so the truthy
-- test of the code adds nothing to the stripped test of the spec.
theorem pyStrip_ne_of_ne (s : String) (h : pyStrip s ≠ "") : s ≠ "" := by
  intro he
  apply h
  rw [he]
  rfl

theorem inspection_sections_eq (secs : List Section) :
    inspection_sections secs
      = (secs.filter sectionQualifiesSpec).map
          (fun s => { name := s.name, status := firstStatus s,
                      deficient := firstDeficient s }) := by
  induction secs with
  | nil => rfl
  | cons s rest ih =>
    cases hli : s.line_items with
    | nil =>
      simp [inspection_sections, List.filter_cons, sectionQualifiesSpec, hli, ih]
    | cons first tail =>
      by_cases hq : pyStrip first.inspection_status ≠ ""
      · have hne : first.inspection_status ≠ "" := pyStrip_ne_of_ne _ hq
        simp [inspection_sections, hli, List.filter_cons, sectionQualifiesSpec,
          hq, hne, ih, firstStatus, firstDeficient]
      · simp [inspection_sections, hli, List.filter_cons, sectionQualifiesSpec,
          hq, ih]

theorem checkboxDataFor_eq (ff : List String) (i : Nat) (ms : MatrixSection) :
    checkboxDataFor ff i ms
      = match offsetSpec ms.status with
        | some off =>
          if checkBoxName (4 * i + off) ∈ ff then
            [(checkBoxName (4 * i + off), true)]
          else []
        | none => [] := by
  by_cases hI : ms.status = "I"
  · simp [checkboxDataFor, offsetSpec, hI, Nat.mul_comm]
  · by_cases hNI : ms.status = "NI"
    · simp [checkboxDataFor, offsetSpec, hI, hNI, Nat.mul_comm]
    · by_cases hNP : ms.status = "NP"
      · simp [checkboxDataFor, offsetSpec, hI, hNI, hNP, Nat.mul_comm]
      · by_cases hD : ms.status = "D"
        · simp [checkboxDataFor, offsetSpec, hI, hNI, hNP, hD, Nat.mul_comm]
        · simp [checkboxDataFor, offsetSpec, hI, hNI, hNP, hD]

-- The head of a filtered list is the first element satisfying the
-- filter.
theorem headFilterFind (q : String → Bool) (l : List String) :
    (l.filter q).head? = l.find? q := by
  induction l with
  | nil => rfl
  | cons x xs ih => by_cases hx : q x <;> simp [List.filter_cons, hx, ih]

-- Searching a sublist of the catalog for a catalog member finds its
-- first element.
theorem findMemFilter (ff : List String) (q : String → Bool) :
    (ff.filter q).find? (fun p => decide (p ∈ ff)) = ff.find? q := by
  rw [← headFilterFind q ff]
  cases hf : ff.filter q with
  | nil => rfl
  | cons x xs =>
    have hx : x ∈ ff := by
      have hxf : x ∈ ff.filter q := by
        rw [hf]
        exact List.mem_cons_self x xs
      exact List.mem_of_mem_filter hxf
    simp [hx]

-- The pattern search of working-1.py equals the spec-side write target:
-- the exact slot name when it is catalogued, else the first catalog name
-- containing it.
theorem findPatternsSlotTarget (ff : List String) (idx : Nat) :
    (W1.target_field_patterns ff idx).find? (fun p => decide (p ∈ ff))
      = W1.slotTargetSpec ff idx := by
  unfold W1.target_field_patterns W1.slotTargetSpec
  by_cases hmem : checkBoxName idx ∈ ff
  · simp [hmem]
  · simp only [List.find?_cons, hmem, decide_False]
    rw [if_neg not_false]
    exact findMemFilter ff _

theorem checkboxDataForW1_eq (ff : List String) (i : Nat) (ms : MatrixSection) :
    W1.checkboxDataForW1 ff i ms
      = match offsetSpec ms.status with
        | some off =>
          match W1.slotTargetSpec ff (4 * i + off) with
          | some f => [(f, "Yes")]
          | none => []
        | none => [] := by
  by_cases hI : ms.status = "I"
  · simp [W1.checkboxDataForW1, W1.target_index, offsetSpec, hI,
      findPatternsSlotTarget, Nat.mul_comm, W1.checkbox_values_to_try]
  · by_cases hNI : ms.status = "NI"
    · simp [W1.checkboxDataForW1, W1.target_index, offsetSpec, hI, hNI,
        findPatternsSlotTarget, Nat.mul_comm, W1.checkbox_values_to_try]
    · by_cases hNP : ms.status = "NP"
      · simp [W1.checkboxDataForW1, W1.target_index, offsetSpec, hI, hNI, hNP,
          findPatternsSlotTarget, Nat.mul_comm, W1.checkbox_values_to_try]
      · by_cases hD : ms.status = "D"
        · simp [W1.checkboxDataForW1, W1.target_index, offsetSpec, hI, hNI, hNP,
            hD, findPatternsSlotTarget, Nat.mul_comm, W1.checkbox_values_to_try]
        · simp [W1.checkboxDataForW1, W1.target_index, offsetSpec, hI, hNI,
            hNP, hD]

/-- Claim C1 (amended): a section qualifies for the checkbox matrix iff
its line-item list is non-empty and the first line items status,
stripped of whitespace, is non-empty (later line items are never
consulted); for the i-th qualifying section with i below 12 and a status
in the set I, NI, NP, D, report.py writes the single slot 4i plus the
offset of its status (I 0, NI 1, NP 2, D 3) exactly when that slot name
is in the field catalog, while working-1.py writes a single checkbox to
the slot name itself when it is catalogued and otherwise to the first
catalog name containing the slot name as a substring (its BOM-prefix
fallback), writing nothing when no such name exists; an unrecognized
status writes nothing, and qualifying sections from the 13th onward
contribute nothing in either variant. -/
theorem matrix_fill_spec (secs : List Section) (ff : List String) :
    inspection_sections secs
      = (secs.filter sectionQualifiesSpec).map
          (fun s => { name := s.name, status := firstStatus s,
                      deficient := firstDeficient s })
  ∧ fill_inspection_matrix secs ff = matrixWritesSpec secs ff
  ∧ W1.fill_inspection_matrix secs ff = W1.matrixWritesSpecW1 secs ff := by
  refine ⟨inspection_sections_eq secs, ?_, ?_⟩
  · unfold fill_inspection_matrix matrixWritesSpec
    rw [inspection_sections_eq, ← List.map_take, List.enum_map, List.flatMap_map]
    congr 1
    funext p
    obtain ⟨i, s⟩ := p
    rw [checkboxDataFor_eq]
    rfl
  · unfold W1.fill_inspection_matrix W1.matrixWritesSpecW1
    rw [inspection_sections_eq, ← List.map_take, List.enum_map, List.flatMap_map]
    congr 1
    funext p
    obtain ⟨i, s⟩ := p
    rw [checkboxDataForW1_eq]
    rfl

/-- Claim C1 counterexample: the working-1.py populator, cited by the
claim, writes a checkbox even when the slot name CheckBox1[3] is not
present in the catalog: against a catalog holding only the BOM-prefixed
name and a record whose single qualifying section has status D, the
matrix fill writes that BOM-prefixed field, where the claim as stated
demands zero checkbox writes. -/
theorem w1_bom_write_cex :
    checkBoxName 3 ∉ W1.bomCatalog
  ∧ W1.fill_inspection_matrix [W1.statusDSection] W1.bomCatalog
      = [("\uFEFFCheckBox1[3]", "Yes")] := by
  decide

end Report

namespace Report

theorem collectFromComments_eq (n : String) (cs : List Comment) :
    collectFromComments n cs
      = ((cs.map (fun c => (n, c))).filterMap generalRenderSpec,
         (cs.map (fun c => (n, c))).filterMap defectRenderSpec) := by
  induction cs with
  | nil => rfl
  | cons c cs ih =>
    simp only [collectFromComments, ih, List.map_cons, List.filterMap_cons]
    by_cases ht : pyStrip c.text ≠ ""
    · by_cases hd : c.type = "defect"
      · simp [generalRenderSpec, defectRenderSpec, ht, hd, renderComment]
      · simp [generalRenderSpec, defectRenderSpec, ht, hd, renderComment]
    · simp [generalRenderSpec, defectRenderSpec, ht]

theorem collectFromItems_eq (n : String) (lis : List LineItem) :
    collectFromItems n lis
      = ((lis.flatMap (fun li => li.comments.map (fun c => (n, c)))).filterMap
           generalRenderSpec,
         (lis.flatMap (fun li => li.comments.map (fun c => (n, c)))).filterMap
           defectRenderSpec) := by
  induction lis with
  | nil => rfl
  | cons li lis ih =>
    simp [collectFromItems, pairApp, ih, collectFromComments_eq,
      List.flatMap_cons, List.filterMap_append]

theorem collectComments_eq (secs : List Section) :
    collectComments secs
      = ((discoveredComments secs).filterMap generalRenderSpec,
         (discoveredComments secs).filterMap defectRenderSpec) := by
  induction secs with
  | nil => rfl
  | cons s rest ih =>
    simp [collectComments, pairApp, ih, collectFromItems_eq,
      discoveredComments, List.flatMap_cons, List.filterMap_append]

/-- Claim C6: the comments presented to the text fields are all
deficiency comments (type tag defect, non-blank text) in discovery order
followed by all general comments (everything else with non-blank text) in
discovery order; for the concrete discovery order G1, D1, G2 with D1 the
only deficiency comment the fill order is D1, G1, G2; assignment to text
fields pairs the i-th comment with the i-th text field and stops when
either list is exhausted. -/
theorem details_fill_spec (secs : List Section) (ff : List String) :
    comments_to_fill secs
      = (discoveredComments secs).filterMap defectRenderSpec
        ++ (discoveredComments secs).filterMap generalRenderSpec
  ∧ comments_to_fill exampleSections = ["Roof: d1", "Roof: g1", "Roof: g2"]
  ∧ (fill_inspection_details secs ff).length
      = min (text_fields_of ff).length (comments_to_fill secs).length
  ∧ (∀ i, i < (fill_inspection_details secs ff).length →
      (fill_inspection_details secs ff).getD i ("", "")
        = ((text_fields_of ff).getD i "",
           truncateComment ((comments_to_fill secs).getD i ""))) := by
  have hlen : (fill_inspection_details secs ff).length
      = min (text_fields_of ff).length (comments_to_fill secs).length := by
    simp [fill_inspection_details, List.length_zip, List.length_take,
      List.length_map]
  refine ⟨?_, by decide, hlen, ?_⟩
  · simp [comments_to_fill, collectComments_eq]
  · intro i hi
    have h1 : i < (text_fields_of ff).length := by
      rw [hlen] at hi
      omega
    have h2 : i < (comments_to_fill secs).length := by
      rw [hlen] at hi
      omega
    rw [List.getD_eq_getElem _ _ hi, List.getD_eq_getElem _ _ h1,
      List.getD_eq_getElem _ _ h2]
    show (List.zip _ _)[i] = _
    rw [List.getElem_zip, List.getElem_map, List.getElem_take]

/-- Claim C6 witness: against a one-text-field catalog and the G1, D1,
G2 record, slot 0 receives the deficiency comment first in the fill
order. -/
theorem details_fill_spec_witness :
    comments_to_fill exampleSections = ["Roof: d1", "Roof: g1", "Roof: g2"]
  ∧ (fill_inspection_details exampleSections ["Text1"]).getD 0 ("", "")
      = ("Text1", "Roof: d1") := by
  have h := details_fill_spec exampleSections ["Text1"]
  refine ⟨h.2.1, ?_⟩
  have h4 := h.2.2.2 0 (by decide)
  rw [h4]
  decide

end Report
